import Mathlib

/-!
Verification development for the Protospace/doorbell repository.

Two independent parts are embedded:

* `Doorbell` — the MQTT doorbell listener of `src/main.py`: the module-level
  cooldown timestamp, the device registry `DOORBELLS`, the ring action
  `ring_bell` and the event dispatcher `process_mqtt`.

* `Pyezviz` — the session/retry protocol of `src/pyezviz/client.py`:
  the token state, the login / refresh exchanges (`login`, `_login`,
  `get_service_urls`) and the retrying API callers (`_api_get_pagelist`,
  `get_alarminfo`).

The embeddings are shallow: side-effecting Python code becomes explicit
state passing, the HTTP transport becomes an environment `Nat → Resp`
consumed one response per request, wall-clock time becomes a rational
parameter, and exceptions become an error-carrying result type.
-/

namespace Doorbell

/-- Observable events of the listener: the module-level `COOLDOWN`
assignment, a call of `play_sound`, and the "Cooldown skipping." log line. -/
inductive Ev where
  | setCooldown (t : ℚ)
  | play (file : String)
  | logSkip
deriving DecidableEq

/-- `CHIME = 'chime.ogg'` (src/main.py line 20). -/
def CHIME : String := "chime.ogg"

/-- The `DOORBELLS` registry (src/main.py lines 22-35):
device id ↦ (name, sound file). -/
def DOORBELLS : List (String × String × String) :=
  [("647166", "Front Door", "frontdoor.ogg"),
   ("549660", "Back Door", "backdoor.ogg"),
   ("56504", "Test Door", "testing.ogg")]

/-- Python `id_ in DOORBELLS` / `DOORBELLS[id_]`: dictionary lookup. -/
def lookupDoorbell (id : String) : Option (String × String) :=
  (DOORBELLS.find? (fun d => d.1 == id)).map (fun d => d.2)

/-- `COOLDOWN = time.time()` (src/main.py line 18): the cooldown timestamp
is initialized to the wall-clock time at module load, i.e. process start. -/
def COOLDOWN_start (startTime : ℚ) : ℚ := startTime

/-- Python `s.startswith(pre)`, computed on the character lists. -/
def pyStartsWith (s pre : String) : Bool :=
  pre.data.isPrefixOf s.data

/-- `ring_bell(sound)` (src/main.py lines 48-67), as a pure function of the
current time and the current `COOLDOWN` value. Returns the emitted event
trace and the `COOLDOWN` value after the call. If `time.time() - COOLDOWN
< 5.0` the ring is skipped (log line, no mutation); otherwise `COOLDOWN`
is assigned the current time first, and only then the sounds are played:
chime (unless the sound is `testing.ogg`), the sound, chime again (same
condition), the sound again. -/
def ring_bell (now cooldown : ℚ) (sound : String) : List Ev × ℚ :=
  if now - cooldown < 5 then ([Ev.logSkip], cooldown)
  else
    (Ev.setCooldown now ::
      ((if sound ≠ "testing.ogg" then [Ev.play CHIME] else []) ++ [Ev.play sound] ++
       (if sound ≠ "testing.ogg" then [Ev.play CHIME] else []) ++ [Ev.play sound]),
     now)

/-- What `message.payload` looks like to `process_mqtt` after
`payload.decode()` and `json.loads`:
bytes that are not valid UTF-8 (`decode` raises `UnicodeDecodeError`),
text that is not JSON (`json.loads` raises `JSONDecodeError`, caught),
JSON that is not an object (`data.get` raises `AttributeError`),
or a JSON object, summarized by `str(data.get('id', ''))`. -/
inductive PayloadModel where
  | badUtf8
  | notJson
  | jsonNonObj
  | jsonObj (idStr : String)
deriving DecidableEq

/-- Uncaught Python exceptions that `process_mqtt` can raise. -/
inductive PExc where
  | unicodeDecodeError
  | attributeError
deriving DecidableEq

/-- `process_mqtt(message)` (src/main.py lines 69-94), as a pure function of
the topic, the payload shape, the current time and the `COOLDOWN` value.
Order follows the source: `payload.decode()` first (line 70, can raise),
then the `rtl_433` topic-prefix check, then `json.loads` with
`JSONDecodeError` caught, then `str(data.get('id', ''))` (raises
`AttributeError` on a non-object), then the registry lookup, then
`ring_bell`. -/
def process_mqtt (topic : String) (payload : PayloadModel) (now cooldown : ℚ) :
    Except PExc (List Ev × ℚ) :=
  if payload = PayloadModel.badUtf8 then .error .unicodeDecodeError
  else if ¬ pyStartsWith topic "rtl_433" then .ok ([], cooldown)
  else
    match payload with
    | .badUtf8 => .error .unicodeDecodeError
    | .notJson => .ok ([], cooldown)
    | .jsonNonObj => .error .attributeError
    | .jsonObj idStr =>
      match lookupDoorbell idStr with
      | none => .ok ([], cooldown)
      | some nb => .ok (ring_bell now cooldown nb.2)

/-- An event is a sound-player invocation. -/
def isPlay : Ev → Bool
  | .play _ => true
  | _ => false

/-- An event is a cooldown-timestamp assignment. -/
def isSetCooldown : Ev → Bool
  | .setCooldown _ => true
  | _ => false

end Doorbell

namespace Doorbell

/-- C2: with the 5-second cooldown threshold, an event for the registered
device "647166" at t = 0 (with the last permitted ring at least 5 seconds
in the past) rings the Front Door sequence and records cooldown 0; an
identical event at t = 3 is discarded with a logged cooldown skip and no
sound; an identical event at t = 6 rings again and records cooldown 6. -/
theorem cooldown_scenario_647166 (c0 : ℚ) (h : c0 ≤ -5) :
    process_mqtt "rtl_433/Honeywell" (PayloadModel.jsonObj "647166") 0 c0 =
      .ok ([Ev.setCooldown 0, Ev.play CHIME, Ev.play "frontdoor.ogg",
            Ev.play CHIME, Ev.play "frontdoor.ogg"], 0) ∧
    process_mqtt "rtl_433/Honeywell" (PayloadModel.jsonObj "647166") 3 0 =
      .ok ([Ev.logSkip], 0) ∧
    process_mqtt "rtl_433/Honeywell" (PayloadModel.jsonObj "647166") 6 0 =
      .ok ([Ev.setCooldown 6, Ev.play CHIME, Ev.play "frontdoor.ogg",
            Ev.play CHIME, Ev.play "frontdoor.ogg"], 6) := by
  have hp : pyStartsWith "rtl_433/Honeywell" "rtl_433" = true := by decide
  have hl : lookupDoorbell "647166" = some ("Front Door", "frontdoor.ogg") := by
    decide
  have hs : ("frontdoor.ogg" : String) ≠ "testing.ogg" := by decide
  have hb : PayloadModel.jsonObj "647166" ≠ PayloadModel.badUtf8 := by decide
  have h1 : ¬(-c0 < 5) := by linarith
  refine ⟨?_, ?_, ?_⟩ <;>
    norm_num [process_mqtt, hp, hl, hs, hb, ring_bell, CHIME, h1]

/-- C2 witness: the scenario instantiated at initial cooldown -5. -/
theorem cooldown_scenario_647166_witness :
    ((-5 : ℚ) ≤ -5) ∧
    process_mqtt "rtl_433/Honeywell" (PayloadModel.jsonObj "647166") 3 0 =
      .ok ([Ev.logSkip], 0) :=
  ⟨by norm_num, (cooldown_scenario_647166 (-5) (by norm_num)).2.1⟩

/-- C3: on every invocation of `ring_bell`, if the cooldown check permits
the ring the cooldown timestamp is set to the current time exactly once
and as the very first event, before any sound is played; if the check
denies the ring, the trace is only the skip log line and the cooldown
value is unchanged, with no sound played. -/
theorem ring_bell_cooldown_discipline (now cooldown : ℚ) (sound : String) :
    (now - cooldown < 5 → ring_bell now cooldown sound = ([Ev.logSkip], cooldown)) ∧
    (5 ≤ now - cooldown → ∃ plays, ring_bell now cooldown sound =
        (Ev.setCooldown now :: plays, now) ∧ plays.all isPlay = true) := by
  constructor
  · intro h
    simp [ring_bell, if_pos h]
  · intro h
    have h' : ¬(now - cooldown < 5) := not_lt.mpr h
    rw [ring_bell, if_neg h']
    refine ⟨_, rfl, ?_⟩
    by_cases hs : sound = "testing.ogg" <;> simp [hs, isPlay]

/-- C3 witness: at now = 10, cooldown = 2 the permitted branch fires, and at
now = 3, cooldown = 0 the denied branch leaves the cooldown unchanged. -/
theorem ring_bell_cooldown_discipline_witness :
    ((3 : ℚ) - 0 < 5 ∧ ring_bell 3 0 "frontdoor.ogg" = ([Ev.logSkip], 0)) ∧
    ((5 : ℚ) ≤ 10 - 2 ∧ ∃ plays, ring_bell 10 2 "frontdoor.ogg" =
        (Ev.setCooldown 10 :: plays, 10) ∧ plays.all isPlay = true) :=
  ⟨⟨by norm_num,
    (ring_bell_cooldown_discipline 3 0 "frontdoor.ogg").1 (by norm_num)⟩,
   ⟨by norm_num,
    (ring_bell_cooldown_discipline 10 2 "frontdoor.ogg").2 (by norm_num)⟩⟩

/-- C4: a permitted ring with sound "backdoor.ogg" invokes the sound player
exactly 4 times, in the order chime, backdoor, chime, backdoor; a permitted
ring with the chime-omitted sound "testing.ogg" invokes it exactly 2 times. -/
theorem ring_bell_play_sequence (now cooldown : ℚ) (h : 5 ≤ now - cooldown) :
    (ring_bell now cooldown "backdoor.ogg").1.filter isPlay =
      [Ev.play CHIME, Ev.play "backdoor.ogg",
       Ev.play CHIME, Ev.play "backdoor.ogg"] ∧
    (ring_bell now cooldown "testing.ogg").1.filter isPlay =
      [Ev.play "testing.ogg", Ev.play "testing.ogg"] := by
  have h' : ¬(now - cooldown < 5) := not_lt.mpr h
  constructor <;> simp [ring_bell, if_neg h', isPlay, CHIME]

/-- C4 witness: the play sequences at now = 6, cooldown = 0. -/
theorem ring_bell_play_sequence_witness :
    ((5 : ℚ) ≤ 6 - 0) ∧
    (ring_bell 6 0 "backdoor.ogg").1.filter isPlay =
      [Ev.play CHIME, Ev.play "backdoor.ogg",
       Ev.play CHIME, Ev.play "backdoor.ogg"] ∧
    (ring_bell 6 0 "testing.ogg").1.filter isPlay =
      [Ev.play "testing.ogg", Ev.play "testing.ogg"] :=
  ⟨by norm_num, ring_bell_play_sequence 6 0 (by norm_num)⟩

/-- C5 counterexample: the dispatcher is not exception-free. A payload that
decodes to a JSON value that is not an object (e.g. the list `[1, 2]`)
passes the topic check and the `json.loads` try/except, and then
`data.get('id', '')` raises an uncaught `AttributeError`; a payload whose
bytes are not valid UTF-8 raises `UnicodeDecodeError` at
`message.payload.decode()` before any check. -/
theorem process_mqtt_raises_on_nonobject_json :
    process_mqtt "rtl_433/Acurite" PayloadModel.jsonNonObj 0 0 =
      .error PExc.attributeError ∧
    process_mqtt "rtl_433/Acurite" PayloadModel.badUtf8 0 0 =
      .error PExc.unicodeDecodeError := by
  have hp : pyStartsWith "rtl_433/Acurite" "rtl_433" = true := by decide
  constructor <;> simp [process_mqtt, hp]

/-- C5 amended: for payloads that decode to text, the dispatcher absorbs
the three enumerated irrelevant cases without raising: text that is not
JSON is discarded, any non-`rtl_433` topic is discarded, and a JSON-object
payload whose device id is not registered (e.g. "999999") is discarded and
never rings; but a payload whose JSON is not an object raises
`AttributeError`, and non-UTF-8 bytes raise `UnicodeDecodeError`. -/
theorem process_mqtt_discard_behavior (topic idStr : String) (now cooldown : ℚ) :
    (process_mqtt topic PayloadModel.notJson now cooldown = .ok ([], cooldown)) ∧
    (pyStartsWith topic "rtl_433" = false →
      ∀ p : PayloadModel, p ≠ PayloadModel.badUtf8 →
        process_mqtt topic p now cooldown = .ok ([], cooldown)) ∧
    (lookupDoorbell idStr = none →
      process_mqtt topic (PayloadModel.jsonObj idStr) now cooldown =
        .ok ([], cooldown)) ∧
    (pyStartsWith topic "rtl_433" = true →
      process_mqtt topic PayloadModel.jsonNonObj now cooldown =
        .error PExc.attributeError) ∧
    (process_mqtt topic PayloadModel.badUtf8 now cooldown =
      .error PExc.unicodeDecodeError) := by
  refine ⟨?_, ?_, ?_, ?_, ?_⟩
  · by_cases ht : pyStartsWith topic "rtl_433" <;> simp [process_mqtt, ht]
  · intro ht p hp
    cases p with
    | badUtf8 => exact absurd rfl hp
    | notJson => simp [process_mqtt, ht]
    | jsonNonObj => simp [process_mqtt, ht]
    | jsonObj idStr2 => simp [process_mqtt, ht]
  · intro hl
    by_cases ht : pyStartsWith topic "rtl_433" <;> simp [process_mqtt, ht, hl]
  · intro ht
    simp [process_mqtt, ht]
  · simp [process_mqtt]

/-- C5 amended witness: not-JSON text, a non-`rtl_433` topic, and the
unregistered id "999999" are each discarded without raising. -/
theorem process_mqtt_discard_behavior_witness :
    process_mqtt "rtl_433/Acurite" PayloadModel.notJson 0 0 = .ok ([], 0) ∧
    process_mqtt "zigbee/lamp" (PayloadModel.jsonObj "647166") 0 0 = .ok ([], 0) ∧
    process_mqtt "rtl_433/Acurite" (PayloadModel.jsonObj "999999") 0 0 =
      .ok ([], 0) :=
  ⟨(process_mqtt_discard_behavior "rtl_433/Acurite" "999999" 0 0).1,
   (process_mqtt_discard_behavior "zigbee/lamp" "647166" 0 0).2.1 (by decide)
     (PayloadModel.jsonObj "647166") (by decide),
   (process_mqtt_discard_behavior "rtl_433/Acurite" "999999" 0 0).2.2.1 (by decide)⟩

/-- C10: `COOLDOWN` is initialized to the wall-clock time at process start,
so a doorbell event for a registered device arriving less than 5 seconds
after startup is discarded as a cooldown skip — no ring, cooldown value
unchanged — even though no prior ring has occurred. -/
theorem startup_cooldown_window_skips (startTime now : ℚ) (topic idStr : String)
    (nb : String × String)
    (htopic : pyStartsWith topic "rtl_433" = true)
    (hid : lookupDoorbell idStr = some nb)
    (hlt : now - startTime < 5) :
    COOLDOWN_start startTime = startTime ∧
    process_mqtt topic (PayloadModel.jsonObj idStr) now (COOLDOWN_start startTime) =
      .ok ([Ev.logSkip], COOLDOWN_start startTime) := by
  refine ⟨rfl, ?_⟩
  simp [process_mqtt, htopic, hid, COOLDOWN_start, ring_bell, if_pos hlt]

/-- C10 witness: a press of "647166" 3 seconds after a startup at time 100
is skipped. -/
theorem startup_cooldown_window_skips_witness :
    ((103 : ℚ) - 100 < 5) ∧
    process_mqtt "rtl_433/Honeywell" (PayloadModel.jsonObj "647166") 103
        (COOLDOWN_start 100) =
      .ok ([Ev.logSkip], COOLDOWN_start 100) :=
  ⟨by norm_num,
   (startup_cooldown_window_skips 100 103 "rtl_433/Honeywell" "647166"
      ("Front Door", "frontdoor.ogg") (by decide) (by decide) (by norm_num)).2⟩

end Doorbell

namespace Pyezviz

/-- The `_token` dict of `EzvizClient` (src/pyezviz/client.py lines 56-61):
session id, refresh session id, username (all `None` before login),
the region base address (a plain string from construction on), and whether
a truthy `service_urls` entry has been attached to the token. -/
structure Token where
  session_id : Option String
  rf_session_id : Option String
  username : Option String
  api_url : String
  service_urls : Bool
deriving DecidableEq

/-- Python truthiness of an optional string (`None` and `""` are falsy). -/
def strTruthy : Option String → Bool
  | none => false
  | some s => s ≠ ""

/-- The aspects of one HTTP response body that the client reads: emptiness
of `req.text`, whether `req.json()` succeeds, the `meta.code` field, the
session fields of a login or refresh body, the redirect `apiDomain`, and
the truthiness of the value extracted under a pagelist `json_key`. -/
structure Body where
  textEmpty : Bool
  jsonOk : Bool
  metaCode : Int
  sessionId : String
  rfSessionId : String
  username : String
  apiDomain : String
  resultTruthy : Bool
deriving DecidableEq

/-- Outcome of one transport invocation: `requests.ConnectionError`, an
HTTP error status raised by `raise_for_status` (carrying the status code),
or a non-error response with its body. -/
inductive Resp where
  | connError
  | httpErr (status : Nat)
  | ok (body : Body)
deriving DecidableEq

/-- State of one `EzvizClient`: the stored credentials, the token, and the
number of transport invocations made so far (the index into the response
environment). -/
structure CState where
  account : Option String
  password : Option String
  token : Token
  calls : Nat
deriving DecidableEq

/-- The distinct exceptions the client can raise.  `rawConnError` is a
`requests.ConnectionError` propagating uncaught (the methods whose
`except` clauses only catch `requests.HTTPError`); `invalidURL` is the
`InvalidURL` the login path maps connection errors to; the remaining
constructors are the `HTTPError` and the distinct `PyEzvizError` messages. -/
inductive Err where
  | invalidURL
  | httpError
  | rawConnError
  | undecodable
  | incorrectUsername
  | incorrectPassword
  | userLocked
  | loginEmptySession
  | reloginRequired
  | maxRetriesExceeded
  | noFilter
  | noData
  | credentialsRequired
deriving DecidableEq

/-- Result of a client operation: `diverge` models a computation that
exceeds the modelling fuel (the source has unbounded recursion in two
places), `err` is a raised exception together with the client state at the
moment of the raise (Python state mutations survive a raise), `ok` is a
normal return. -/
inductive Out (α : Type) where
  | diverge
  | err (e : Err) (s : CState)
  | ok (a : α)
deriving DecidableEq

/-- One transport invocation: consume the next response of the
environment. -/
def transport (env : Nat → Resp) (s : CState) : Resp × CState :=
  (env s.calls, { s with calls := s.calls + 1 })

/-- Python `return self.login()` inside `_login`: `login()` returns the
token dict, which in this embedding is the token of the returned state. -/
def withTokenResult : Out CState → Out (Token × CState)
  | .diverge => .diverge
  | .err e s => .err e s
  | .ok s => .ok (s.token, s)

/-- Python `return self._login(...)` inside `login()`: the returned dict is
the client token, so only the state is kept. -/
def dropTokenResult : Out (Token × CState) → Out CState
  | .diverge => .diverge
  | .err e s => .err e s
  | .ok (_, s) => .ok s

/-- The region-code-to-url step at the top of `_login` (lines 67-69):
`len(url.split(".")) == 1` — i.e. the stored address contains no dot —
wraps it into a full hostname. -/
def regionToUrl (url : String) : String :=
  if url.data.contains '.' then url else "apii" ++ url ++ ".ezvizlife.com"

mutual

/-- `EzvizClient.login` (lines 557-603).  With a truthy session id and
refresh id the refresh exchange runs: one PUT; `ConnectionError` is not
caught here; an HTTP error raises `HTTPError` (no retry); an undecodable
body raises; the two session fields are overwritten from the body, then an
empty new session id raises "Relogin required"; `service_urls` is fetched
once if absent.  Without a truthy session pair, a full login runs if both
credentials are truthy, otherwise "Login with account and password
required" is raised. -/
def login (env : Nat → Resp) (fuel : Nat) (s : CState) : Out CState :=
  match fuel with
  | 0 => .diverge
  | fuel + 1 =>
    if strTruthy s.token.session_id && strTruthy s.token.rf_session_id then
      match transport env s with
      | (.connError, s1) => .err .rawConnError s1
      | (.httpErr _, s1) => .err .httpError s1
      | (.ok body, s1) =>
        if !body.jsonOk then .err .undecodable s1
        else
          let s2 : CState := { s1 with token :=
            { s1.token with session_id := some body.sessionId,
                            rf_session_id := some body.rfSessionId } }
          if body.sessionId = "" then .err .reloginRequired s2
          else if !s2.token.service_urls then
            match getServiceUrls env fuel s2 with
            | .diverge => .diverge
            | .err e s3 => .err e s3
            | .ok s3 =>
              .ok { s3 with token := { s3.token with service_urls := true } }
          else .ok s2
    else if strTruthy s.account && strTruthy s.password then
      dropTokenResult (loginFull env fuel (s.account.getD "") (s.password.getD "") s)
    else .err .credentialsRequired s

/-- `EzvizClient._login` (lines 64-144).  Region-code munging, one POST;
`ConnectionError` maps to `InvalidURL`, HTTP errors to `HTTPError`; an
undecodable body raises; `meta.code` 1100 adopts the new `apiDomain` and
re-enters `login()` (unbounded); 1013/1014/1015 raise the credential
errors; otherwise all four token fields are overwritten from the body, an
empty session id raises, and `get_service_urls` is fetched and attached. -/
def loginFull (env : Nat → Resp) (fuel : Nat) (account password : String)
    (s : CState) : Out (Token × CState) :=
  match fuel with
  | 0 => .diverge
  | fuel + 1 =>
    let s0 : CState :=
      { s with token := { s.token with api_url := regionToUrl s.token.api_url } }
    match transport env s0 with
    | (.connError, s1) => .err .invalidURL s1
    | (.httpErr _, s1) => .err .httpError s1
    | (.ok body, s1) =>
      if !body.jsonOk then .err .undecodable s1
      else if body.metaCode = 1100 then
        let s2 : CState :=
          { s1 with token := { s1.token with api_url := body.apiDomain } }
        withTokenResult (login env fuel s2)
      else if body.metaCode = 1013 then .err .incorrectUsername s1
      else if body.metaCode = 1014 then .err .incorrectPassword s1
      else if body.metaCode = 1015 then .err .userLocked s1
      else
        let t1 : Token :=
          { session_id := some body.sessionId,
            rf_session_id := some body.rfSessionId,
            username := some body.username,
            api_url := body.apiDomain,
            service_urls := s1.token.service_urls }
        let s2 : CState := { s1 with token := t1 }
        if body.sessionId = "" then .err .loginEmptySession s2
        else
          match getServiceUrls env fuel s2 with
          | .diverge => .diverge
          | .err e s3 => .err e s3
          | .ok s3 =>
            .ok ({ s3.token with service_urls := true },
                 { s3 with token := { s3.token with service_urls := true } })

/-- `EzvizClient.get_service_urls` (lines 146-191).  One GET;
`ConnectionError` maps to `InvalidURL`; a 401 runs `self.login()` and then
raises `HTTPError` regardless; other HTTP errors raise `HTTPError`; an
empty body raises "No data"; an undecodable body raises; a non-200
`meta.code` is only logged. -/
def getServiceUrls (env : Nat → Resp) (fuel : Nat) (s : CState) : Out CState :=
  match fuel with
  | 0 => .diverge
  | fuel + 1 =>
    match transport env s with
    | (.connError, s1) => .err .invalidURL s1
    | (.httpErr status, s1) =>
      if status = 401 then
        match login env fuel s1 with
        | .diverge => .diverge
        | .err e s2 => .err e s2
        | .ok s2 => .err .httpError s2
      else .err .httpError s1
    | (.ok body, s1) =>
      if body.textEmpty then .err .noData s1
      else if !body.jsonOk then .err .undecodable s1
      else .ok s1

end

/-- `EzvizClient._api_get_pagelist` (lines 193-258), parameterized by the
value of the imported constant `MAX_RETRIES` (defined in
`pyezviz/constants.py`, which is not part of this source tree).  A counter
above `MAX_RETRIES` raises "Max retries exceeded"; a missing filter
raises; one GET per attempt; `ConnectionError` is not caught; a 401 runs
`self.login()` and re-enters with counter + 1; other HTTP errors raise;
an empty body raises "No data"; an undecodable body raises; a non-200
`meta.code` runs `self.login()` and re-enters with counter + 1; a falsy
extracted result (under `json_key`, or the whole body without one — the
whole body is a dict containing `meta`, hence truthy) runs `self.login()`
and re-enters with counter + 1; otherwise the result is returned. -/
def apiGetPagelist (env : Nat → Resp) (MAXR fuel : Nat) (pageFilter : Option String)
    (jsonKey : Option String) (s : CState) (max_retries : Nat) :
    Out (Body × CState) :=
  if h : max_retries > MAXR then .err .maxRetriesExceeded s
  else if pageFilter = none then .err .noFilter s
  else
    match transport env s with
    | (.connError, s1) => .err .rawConnError s1
    | (.httpErr status, s1) =>
      if status = 401 then
        match login env fuel s1 with
        | .diverge => .diverge
        | .err e s2 => .err e s2
        | .ok s2 => apiGetPagelist env MAXR fuel pageFilter jsonKey s2 (max_retries + 1)
      else .err .httpError s1
    | (.ok body, s1) =>
      if body.textEmpty then .err .noData s1
      else if !body.jsonOk then .err .undecodable s1
      else if body.metaCode ≠ 200 then
        match login env fuel s1 with
        | .diverge => .diverge
        | .err e s2 => .err e s2
        | .ok s2 => apiGetPagelist env MAXR fuel pageFilter jsonKey s2 (max_retries + 1)
      else if jsonKey.isNone || body.resultTruthy then .ok (body, s1)
      else
        match login env fuel s1 with
        | .diverge => .diverge
        | .err e s2 => .err e s2
        | .ok s2 => apiGetPagelist env MAXR fuel pageFilter jsonKey s2 (max_retries + 1)
termination_by MAXR + 1 - max_retries
decreasing_by all_goals omega

/-- `EzvizClient.get_alarminfo` (lines 260-304), parameterized by
`MAX_RETRIES` like `apiGetPagelist`.  A counter above `MAX_RETRIES`
raises; one GET per attempt; `ConnectionError` is not caught; a 401 runs
`self.login()` and re-enters with counter + 1; other HTTP errors raise; an
empty body raises "No data"; an undecodable body raises; otherwise the
decoded body is returned (no `meta.code` check here). -/
def getAlarminfo (env : Nat → Resp) (MAXR fuel : Nat) (serial : String)
    (s : CState) (max_retries : Nat) : Out (Body × CState) :=
  if h : max_retries > MAXR then .err .maxRetriesExceeded s
  else
    match transport env s with
    | (.connError, s1) => .err .rawConnError s1
    | (.httpErr status, s1) =>
      if status = 401 then
        match login env fuel s1 with
        | .diverge => .diverge
        | .err e s2 => .err e s2
        | .ok s2 => getAlarminfo env MAXR fuel serial s2 (max_retries + 1)
      else .err .httpError s1
    | (.ok body, s1) =>
      if body.textEmpty then .err .noData s1
      else if !body.jsonOk then .err .undecodable s1
      else .ok (body, s1)
termination_by MAXR + 1 - max_retries
decreasing_by all_goals omega

end Pyezviz

namespace Pyezviz

/-- A login response body carrying a complete, healthy login session. -/
def okLoginBody : Body :=
  { textEmpty := false, jsonOk := true, metaCode := 200, sessionId := "sessid",
    rfSessionId := "rfid", username := "user",
    apiDomain := "apius.ezvizlife.com", resultTruthy := true }

/-- A refresh response body carrying a fresh session pair. -/
def refreshBody : Body :=
  { textEmpty := false, jsonOk := true, metaCode := 200,
    sessionId := "refreshed-session", rfSessionId := "refreshed-rf",
    username := "", apiDomain := "", resultTruthy := true }

/-- A decodable 200-status body whose `meta.code` is not 200: the
stale-session shape that makes `_api_get_pagelist` re-login and retry. -/
def staleBody : Body :=
  { textEmpty := false, jsonOk := true, metaCode := 500, sessionId := "",
    rfSessionId := "", username := "", apiDomain := "", resultTruthy := true }

/-- A login response body with `meta.code` 1100: a region redirect to
`apius.ezvizlife.com`. -/
def redirectBody : Body :=
  { textEmpty := false, jsonOk := true, metaCode := 1100, sessionId := "",
    rfSessionId := "", username := "", apiDomain := "apius.ezvizlife.com",
    resultTruthy := true }

/-- A client that already holds a fully populated token (constructed with a
`token=` argument, no stored credentials). -/
def authedState : CState :=
  { account := none, password := none,
    token := { session_id := some "sess0", rf_session_id := some "rf0",
               username := some "user", api_url := "apius.ezvizlife.com",
               service_urls := true },
    calls := 0 }

/-- A freshly constructed client with credentials and the default region
address, before any login. -/
def freshState : CState :=
  { account := some "bob", password := some "hunter2",
    token := { session_id := none, rf_session_id := none, username := none,
               api_url := "apiieu.ezvizlife.com", service_urls := false },
    calls := 0 }

/-- A freshly constructed client with neither credentials nor a token. -/
def freshNoCreds : CState :=
  { account := none, password := none,
    token := { session_id := none, rf_session_id := none, username := none,
               api_url := "apiieu.ezvizlife.com", service_urls := false },
    calls := 0 }

/-- The environment in which every API request fails 401 and every refresh
exchange succeeds: requests and refreshes strictly alternate, so the
even-numbered transport calls are the failing API requests and the
odd-numbered ones the refresh exchanges. -/
def env401 : Nat → Resp :=
  fun n => if n % 2 = 0 then .httpErr 401 else .ok refreshBody

/-- An environment in which the host is unreachable: every transport
invocation fails with `requests.ConnectionError`. -/
def envConn : Nat → Resp := fun _ => .connError

/-- An environment in which every transport invocation yields HTTP 500. -/
def envHttp500 : Nat → Resp := fun _ => .httpErr 500

/-- An environment in which every response is a region redirect. -/
def envRedirect : Nat → Resp := fun _ => .ok redirectBody

/-- An environment in which every response is a healthy login body (also a
valid service-info body). -/
def envLoginOk : Nat → Resp := fun _ => .ok okLoginBody

/-- A successful refresh exchange: with a truthy session pair, an attached
`service_urls`, and a `refreshBody` response at the next transport index,
`login` consumes exactly one transport call and replaces the session pair. -/
theorem login_refresh_ok (env : Nat → Resp) (fuel : Nat) (s : CState)
    (h1 : strTruthy s.token.session_id = true)
    (h2 : strTruthy s.token.rf_session_id = true)
    (h3 : s.token.service_urls = true)
    (hr : env s.calls = .ok refreshBody) :
    login env (fuel + 1) s =
      .ok { s with
              token := { s.token with
                           session_id := some "refreshed-session",
                           rf_session_id := some "refreshed-rf" },
              calls := s.calls + 1 } := by
  simp [login, transport, hr, h1, h2, h3, refreshBody]

end Pyezviz

namespace Pyezviz

/-- The client state after one failed request plus one successful refresh
in an alternating environment: two more transport calls, session pair
replaced. -/
def refreshedState (s : CState) : CState :=
  { s with
      token := { s.token with
                   session_id := some "refreshed-session",
                   rf_session_id := some "refreshed-rf" },
      calls := s.calls + 2 }

theorem refreshedState_calls (s : CState) : (refreshedState s).calls = s.calls + 2 :=
  rfl

/-- One failing round of `_api_get_pagelist`: a 401 or a stale-session
response followed by a successful refresh re-enters the call with the
counter incremented and two more transport calls consumed. -/
theorem pagelist_one_round (env : Nat → Resp) (MAXR fuel : Nat) (f : String)
    (key : Option String) (s : CState) (mr : Nat)
    (hmr : mr ≤ MAXR)
    (h0 : env s.calls = .httpErr 401 ∨ env s.calls = .ok staleBody)
    (h1 : env (s.calls + 1) = .ok refreshBody)
    (hs1 : strTruthy s.token.session_id = true)
    (hs2 : strTruthy s.token.rf_session_id = true)
    (hs3 : s.token.service_urls = true) :
    apiGetPagelist env MAXR (fuel + 1) (some f) key s mr =
      apiGetPagelist env MAXR (fuel + 1) (some f) key (refreshedState s) (mr + 1) := by
  have hguard : ¬ mr > MAXR := by omega
  have hlog := login_refresh_ok env fuel { s with calls := s.calls + 1 } hs1 hs2 hs3 h1
  rcases h0 with h0 | h0 <;>
  · conv_lhs => rw [apiGetPagelist]
    simp [transport, h0, hlog, hguard, staleBody, refreshedState]

/-- One failing round of `get_alarminfo`: a 401 followed by a successful
refresh re-enters the call with the counter incremented and two more
transport calls consumed. -/
theorem alarminfo_one_round (env : Nat → Resp) (MAXR fuel : Nat) (serial : String)
    (s : CState) (mr : Nat)
    (hmr : mr ≤ MAXR)
    (h0 : env s.calls = .httpErr 401)
    (h1 : env (s.calls + 1) = .ok refreshBody)
    (hs1 : strTruthy s.token.session_id = true)
    (hs2 : strTruthy s.token.rf_session_id = true)
    (hs3 : s.token.service_urls = true) :
    getAlarminfo env MAXR (fuel + 1) serial s mr =
      getAlarminfo env MAXR (fuel + 1) serial (refreshedState s) (mr + 1) := by
  have hguard : ¬ mr > MAXR := by omega
  have hlog := login_refresh_ok env fuel { s with calls := s.calls + 1 } hs1 hs2 hs3 h1
  conv_lhs => rw [getAlarminfo]
  simp [transport, h0, hlog, hguard, refreshedState]

end Pyezviz

namespace Pyezviz

/-- The retry loop of `_api_get_pagelist` exhausts its budget: in an
alternating fail/refresh environment, starting from a counter with
`MAXR + 1 - mr = k + 1` rounds left, the call raises "Max retries
exceeded" after exactly `2 * (k + 1)` further transport calls. -/
theorem pagelist_retry_exhausts (env : Nat → Resp) (MAXR fuel : Nat) (f : String)
    (key : Option String)
    (henv0 : ∀ n, n % 2 = 0 → env n = .httpErr 401 ∨ env n = .ok staleBody)
    (henv1 : ∀ n, n % 2 = 1 → env n = .ok refreshBody) :
    ∀ k mr s, MAXR + 1 - mr = k + 1 → mr ≤ MAXR →
      strTruthy s.token.session_id = true →
      strTruthy s.token.rf_session_id = true →
      s.token.service_urls = true → s.calls % 2 = 0 →
      ∃ s2, apiGetPagelist env MAXR (fuel + 1) (some f) key s mr =
          .err .maxRetriesExceeded s2 ∧ s2.calls = s.calls + 2 * (k + 1) := by
  intro k
  induction k with
  | zero =>
    intro mr s hk hmr hs1 hs2 hs3 hpar
    rw [pagelist_one_round env MAXR fuel f key s mr hmr (henv0 _ hpar)
      (henv1 _ (by omega)) hs1 hs2 hs3]
    rw [apiGetPagelist]
    have hg : mr + 1 > MAXR := by omega
    refine ⟨refreshedState s, ?_, by simp [refreshedState_calls]⟩
    simp [hg]
  | succ k ih =>
    intro mr s hk hmr hs1 hs2 hs3 hpar
    rw [pagelist_one_round env MAXR fuel f key s mr hmr (henv0 _ hpar)
      (henv1 _ (by omega)) hs1 hs2 hs3]
    obtain ⟨s2, hres, hc⟩ := ih (mr + 1) (refreshedState s) (by omega) (by omega)
      rfl rfl hs3 (by rw [refreshedState_calls]; omega)
    refine ⟨s2, hres, ?_⟩
    rw [hc, refreshedState_calls]
    ring

/-- The retry loop of `get_alarminfo` exhausts its budget in the all-401
environment, exactly like `_api_get_pagelist`. -/
theorem alarminfo_retry_exhausts (env : Nat → Resp) (MAXR fuel : Nat)
    (serial : String)
    (henv0 : ∀ n, n % 2 = 0 → env n = .httpErr 401)
    (henv1 : ∀ n, n % 2 = 1 → env n = .ok refreshBody) :
    ∀ k mr s, MAXR + 1 - mr = k + 1 → mr ≤ MAXR →
      strTruthy s.token.session_id = true →
      strTruthy s.token.rf_session_id = true →
      s.token.service_urls = true → s.calls % 2 = 0 →
      ∃ s2, getAlarminfo env MAXR (fuel + 1) serial s mr =
          .err .maxRetriesExceeded s2 ∧ s2.calls = s.calls + 2 * (k + 1) := by
  intro k
  induction k with
  | zero =>
    intro mr s hk hmr hs1 hs2 hs3 hpar
    rw [alarminfo_one_round env MAXR fuel serial s mr hmr (henv0 _ hpar)
      (henv1 _ (by omega)) hs1 hs2 hs3]
    rw [getAlarminfo]
    have hg : mr + 1 > MAXR := by omega
    refine ⟨refreshedState s, ?_, by simp [refreshedState_calls]⟩
    simp [hg]
  | succ k ih =>
    intro mr s hk hmr hs1 hs2 hs3 hpar
    rw [alarminfo_one_round env MAXR fuel serial s mr hmr (henv0 _ hpar)
      (henv1 _ (by omega)) hs1 hs2 hs3]
    obtain ⟨s2, hres, hc⟩ := ih (mr + 1) (refreshedState s) (by omega) (by omega)
      rfl rfl hs3 (by rw [refreshedState_calls]; omega)
    refine ⟨s2, hres, ?_⟩
    rw [hc, refreshedState_calls]
    ring

end Pyezviz

namespace Pyezviz

/-- C1: the retrying operations (`_api_get_pagelist`, `get_alarminfo`) never
exceed the retry budget.  For every value `MAXR` of `MAX_RETRIES` and every
counter value `mr`: (i) if every request draws an unauthorized (401) or
stale-session response and every refresh succeeds, a call entered with
counter `mr ≤ MAXR` raises "Can't gather proper data. Max retries
exceeded." after exactly `2 * (MAXR + 1 - mr)` transport calls — i.e.
`MAXR + 1 - mr` failing requests each followed by one refresh, so from
`mr = 0` the operation performs `MAXR` complete refresh-then-retry cycles
and the `(MAXR + 1)`-th failing response is followed by a refresh and the
error, never by another request; (ii) a call entered with counter
`mr > MAXR` raises immediately, with no transport call and no refresh
(the state is returned unchanged). -/
theorem retry_budget_exhaustion (env : Nat → Resp) (MAXR fuel : Nat)
    (f serial : String) (key : Option String) (s : CState)
    (henv1 : ∀ n, n % 2 = 1 → env n = .ok refreshBody)
    (hs1 : strTruthy s.token.session_id = true)
    (hs2 : strTruthy s.token.rf_session_id = true)
    (hs3 : s.token.service_urls = true)
    (hcalls : s.calls % 2 = 0) :
    ((∀ n, n % 2 = 0 → env n = .httpErr 401 ∨ env n = .ok staleBody) →
      ∀ mr, mr ≤ MAXR →
        ∃ s2, apiGetPagelist env MAXR (fuel + 1) (some f) key s mr =
            .err .maxRetriesExceeded s2 ∧
          s2.calls = s.calls + 2 * (MAXR + 1 - mr)) ∧
    (∀ mr, MAXR < mr →
      apiGetPagelist env MAXR (fuel + 1) (some f) key s mr =
        .err .maxRetriesExceeded s) ∧
    ((∀ n, n % 2 = 0 → env n = .httpErr 401) →
      ∀ mr, mr ≤ MAXR →
        ∃ s2, getAlarminfo env MAXR (fuel + 1) serial s mr =
            .err .maxRetriesExceeded s2 ∧
          s2.calls = s.calls + 2 * (MAXR + 1 - mr)) ∧
    (∀ mr, MAXR < mr →
      getAlarminfo env MAXR (fuel + 1) serial s mr =
        .err .maxRetriesExceeded s) := by
  refine ⟨?_, ?_, ?_, ?_⟩
  · intro henv0 mr hmr
    obtain ⟨s2, hres, hc⟩ := pagelist_retry_exhausts env MAXR fuel f key henv0 henv1
      (MAXR - mr) mr s (by omega) hmr hs1 hs2 hs3 hcalls
    exact ⟨s2, hres, by omega⟩
  · intro mr hmr
    rw [apiGetPagelist]
    simp [hmr]
  · intro henv0 mr hmr
    obtain ⟨s2, hres, hc⟩ := alarminfo_retry_exhausts env MAXR fuel serial henv0 henv1
      (MAXR - mr) mr s (by omega) hmr hs1 hs2 hs3 hcalls
    exact ⟨s2, hres, by omega⟩
  · intro mr hmr
    rw [getAlarminfo]
    simp [hmr]

/-- C1 witness: with `MAX_RETRIES = 3`, from counter 0 both operations
raise after 8 transport calls (4 failing requests, 4 refreshes), and from
counter 4 both raise with the state untouched. -/
theorem retry_budget_exhaustion_witness :
    (∃ s2, apiGetPagelist env401 3 1 (some "CLOUD") none authedState 0 =
        .err .maxRetriesExceeded s2 ∧ s2.calls = 8) ∧
    apiGetPagelist env401 3 1 (some "CLOUD") none authedState 4 =
      .err .maxRetriesExceeded authedState ∧
    (∃ s2, getAlarminfo env401 3 1 "D66666" authedState 0 =
        .err .maxRetriesExceeded s2 ∧ s2.calls = 8) ∧
    getAlarminfo env401 3 1 "D66666" authedState 4 =
      .err .maxRetriesExceeded authedState := by
  obtain ⟨A, B, C, D⟩ := retry_budget_exhaustion env401 3 0 "CLOUD" "D66666" none
    authedState (fun n hn => by simp [env401, hn])
    (by decide) (by decide) (by decide) (by decide)
  refine ⟨?_, B 4 (by omega), ?_, D 4 (by omega)⟩
  · obtain ⟨s2, hres, hc⟩ := A (fun n hn => Or.inl (by simp [env401, hn])) 0 (by omega)
    exact ⟨s2, hres, by simpa [authedState] using hc⟩
  · obtain ⟨s2, hres, hc⟩ := C (fun n hn => by simp [env401, hn]) 0 (by omega)
    exact ⟨s2, hres, by simpa [authedState] using hc⟩

end Pyezviz

namespace Pyezviz

/-- C6 counterexample: a refresh exchange that is attempted and fails does
NOT surface the credentials-required error even when no credentials are
stored.  With a populated token and no stored credentials, an HTTP 500 on
the refresh PUT makes `login()` raise `HTTPError` — the
"Login with account and password required" branch is never reached. -/
theorem login_refresh_http_failure_counterexample :
    login envHttp500 1 authedState =
      .err .httpError { authedState with calls := 1 } ∧
    Err.httpError ≠ Err.credentialsRequired := by
  constructor
  · decide
  · decide

/-- C6 amended: when the refresh exchange is impossible — the stored token
lacks a truthy session-id/refresh-id pair — and no truthy credentials are
stored, `login()` raises "Login with account and password required"
without making any transport call (the state, including the call counter,
is returned unchanged), hence it never attempts a login exchange.  A
refresh exchange that is attempted and fails surfaces that failure
instead (see the counterexample). -/
theorem login_requires_credentials (env : Nat → Resp) (fuel : Nat) (s : CState)
    (hsess : ¬(strTruthy s.token.session_id = true ∧
               strTruthy s.token.rf_session_id = true))
    (hcred : ¬(strTruthy s.account = true ∧ strTruthy s.password = true)) :
    login env (fuel + 1) s = .err .credentialsRequired s := by
  have h1 : (strTruthy s.token.session_id && strTruthy s.token.rf_session_id) = false := by
    cases hA : strTruthy s.token.session_id <;>
      cases hB : strTruthy s.token.rf_session_id <;> simp_all
  have h2 : (strTruthy s.account && strTruthy s.password) = false := by
    cases hA : strTruthy s.account <;> cases hB : strTruthy s.password <;> simp_all
  simp [login, h1, h2]

/-- C6 amended witness: a fresh client with no token and no credentials. -/
theorem login_requires_credentials_witness :
    login envLoginOk 1 freshNoCreds = .err .credentialsRequired freshNoCreds :=
  login_requires_credentials envLoginOk 0 freshNoCreds (by decide) (by decide)

/-- C7 counterexample: in `_api_get_pagelist` a connection-level failure is
NOT mapped to the "invalid endpoint" error: the method catches only
`requests.HTTPError`, so the raw `requests.ConnectionError` propagates. -/
theorem pagelist_conn_error_unmapped :
    apiGetPagelist envConn 3 1 (some "CLOUD") none authedState 0 =
      .err .rawConnError { authedState with calls := 1 } ∧
    Err.rawConnError ≠ Err.invalidURL := by
  constructor
  · rw [apiGetPagelist]
    simp [transport, envConn, authedState]
  · decide

/-- C7 amended: a connection-level failure is fatal on the first transport
invocation — exactly one transport call is made, no session refresh and no
retry happen.  In `_login` it is mapped to the `InvalidURL`
("invalid endpoint") error; in `_api_get_pagelist` and `get_alarminfo`,
whose handlers catch only `requests.HTTPError`, the raw
`requests.ConnectionError` propagates instead. -/
theorem conn_error_fatal_first_call (env : Nat → Resp) (MAXR fuel : Nat)
    (f a p serial : String) (key : Option String) (s : CState) (mr : Nat)
    (hmr : mr ≤ MAXR) (hconn : env s.calls = .connError) :
    apiGetPagelist env MAXR fuel (some f) key s mr =
      .err .rawConnError { s with calls := s.calls + 1 } ∧
    getAlarminfo env MAXR fuel serial s mr =
      .err .rawConnError { s with calls := s.calls + 1 } ∧
    loginFull env (fuel + 1) a p s =
      .err .invalidURL
        { s with
            token := { s.token with api_url := regionToUrl s.token.api_url },
            calls := s.calls + 1 } := by
  have hg : ¬ mr > MAXR := by omega
  refine ⟨?_, ?_, ?_⟩
  · rw [apiGetPagelist]
    simp [transport, hconn, hg]
  · rw [getAlarminfo]
    simp [transport, hconn, hg]
  · simp [loginFull, transport, hconn]

/-- C7 amended witness: an unreachable host on a fresh client. -/
theorem conn_error_fatal_first_call_witness :
    (0 ≤ 3) ∧
    apiGetPagelist envConn 3 1 (some "CLOUD") none freshState 0 =
      .err .rawConnError { freshState with calls := freshState.calls + 1 } ∧
    getAlarminfo envConn 3 1 "D66666" freshState 0 =
      .err .rawConnError { freshState with calls := freshState.calls + 1 } ∧
    loginFull envConn 2 "bob" "hunter2" freshState =
      .err .invalidURL
        { freshState with
            token := { freshState.token with
                         api_url := regionToUrl freshState.token.api_url },
            calls := freshState.calls + 1 } :=
  ⟨by omega,
   conn_error_fatal_first_call envConn 3 1 "CLOUD" "bob" "hunter2" "D66666" none
     freshState 0 (by omega) (by decide)⟩

end Pyezviz

namespace Pyezviz

/-- A fully populated token: session id truthy (non-empty), refresh id and
username present, service urls attached.  The base address `api_url` is a
plain string field, always present, mirroring the source dict. -/
def fullyPopulated (t : Token) : Prop :=
  strTruthy t.session_id = true ∧ t.rf_session_id.isSome = true ∧
  t.username.isSome = true ∧ t.service_urls = true

/-- `get_service_urls` never touches the token: a successful call returns
the state with one more transport call and the token unchanged. -/
theorem getServiceUrls_ok (env : Nat → Resp) (fuel : Nat) (s s3 : CState)
    (h : getServiceUrls env fuel s = .ok s3) :
    s3 = { s with calls := s.calls + 1 } := by
  cases fuel with
  | zero => simp [getServiceUrls] at h
  | succ n =>
    cases henv : env s.calls with
    | connError => simp [getServiceUrls, transport, henv] at h
    | httpErr code =>
      by_cases hc : code = 401
      · simp [getServiceUrls, transport, henv, hc] at h
        cases hl : login env n { s with calls := s.calls + 1 } <;> simp [hl] at h
      · simp [getServiceUrls, transport, henv, hc] at h
    | ok body =>
      by_cases ht : body.textEmpty <;> by_cases hj : body.jsonOk <;>
        simp [getServiceUrls, transport, henv, ht, hj] at h
      exact h.symm

end Pyezviz

namespace Pyezviz

/-- The `meta.code` 1100 branch of `_login`: adopt the redirect domain and
re-enter `login()` with one transport call consumed. -/
theorem loginFull_redirect_step (env : Nat → Resp) (fuel : Nat) (a p : String)
    (s : CState) (body : Body)
    (hresp : env s.calls = .ok body) (hjson : body.jsonOk = true)
    (hcode : body.metaCode = 1100) :
    loginFull env (fuel + 1) a p s =
      withTokenResult (login env fuel
        { s with
            token := { s.token with api_url := body.apiDomain },
            calls := s.calls + 1 }) := by
  simp [loginFull, transport, hresp, hjson, hcode]

/-- The success branch of `_login`: all four token fields are overwritten
from the body, then `get_service_urls` is fetched and attached. -/
theorem loginFull_success_step (env : Nat → Resp) (fuel : Nat) (a p : String)
    (s : CState) (body : Body)
    (hresp : env s.calls = .ok body) (hjson : body.jsonOk = true)
    (hm0 : body.metaCode ≠ 1100) (hm1 : body.metaCode ≠ 1013)
    (hm2 : body.metaCode ≠ 1014) (hm3 : body.metaCode ≠ 1015)
    (hsid : ¬(body.sessionId = "")) :
    loginFull env (fuel + 1) a p s =
      match getServiceUrls env fuel
        { s with
            token := { session_id := some body.sessionId,
                       rf_session_id := some body.rfSessionId,
                       username := some body.username,
                       api_url := body.apiDomain,
                       service_urls := s.token.service_urls },
            calls := s.calls + 1 } with
      | .diverge => .diverge
      | .err e s3 => .err e s3
      | .ok s3 =>
        .ok ({ s3.token with service_urls := true },
             { s3 with token := { s3.token with service_urls := true } }) := by
  simp [loginFull, transport, hresp, hjson, hm0, hm1, hm2, hm3, hsid]

/-- The full-login branch of `login()`: no truthy session pair, truthy
credentials. -/
theorem login_full_branch (env : Nat → Resp) (fuel : Nat) (s : CState)
    (hsess : (strTruthy s.token.session_id && strTruthy s.token.rf_session_id) = false)
    (hcred : (strTruthy s.account && strTruthy s.password) = true) :
    login env (fuel + 1) s =
      dropTokenResult (loginFull env fuel (s.account.getD "") (s.password.getD "") s) := by
  simp [login, hsess, hcred]

/-- Any successful full login exchange entered without a truthy session
pair — the only way `login()` reaches `_login` — returns the client token,
and that token is fully populated. -/
theorem loginFull_login_populated (env : Nat → Resp) :
    ∀ fuel : Nat,
      (∀ a p s t s2,
        ¬(strTruthy s.token.session_id = true ∧
          strTruthy s.token.rf_session_id = true) →
        loginFull env fuel a p s = .ok (t, s2) →
        t = s2.token ∧ fullyPopulated t) ∧
      (∀ s s2,
        ¬(strTruthy s.token.session_id = true ∧
          strTruthy s.token.rf_session_id = true) →
        login env fuel s = .ok s2 → fullyPopulated s2.token) := by
  intro fuel
  induction fuel with
  | zero =>
    constructor
    · intro a p s t s2 hfresh h
      simp [loginFull] at h
    · intro s s2 hfresh h
      simp [login] at h
  | succ n ih =>
    obtain ⟨ihF, ihL⟩ := ih
    constructor
    · intro a p s t s2 hfresh h
      cases henv : env s.calls with
      | connError => simp [loginFull, transport, henv] at h
      | httpErr code => simp [loginFull, transport, henv] at h
      | ok body =>
        by_cases hj : body.jsonOk = true
        case neg => simp [loginFull, transport, henv, hj] at h
        by_cases h1100 : body.metaCode = 1100
        · rw [loginFull_redirect_step env n a p s body henv hj h1100] at h
          rcases hl : (login env n
              { s with
                  token := { s.token with api_url := body.apiDomain },
                  calls := s.calls + 1 }) with _ | ⟨e, s3⟩ | s3
          · rw [hl] at h
            simp [withTokenResult] at h
          · rw [hl] at h
            simp [withTokenResult] at h
          · rw [hl] at h
            simp [withTokenResult] at h
            have hpop := ihL
              { s with
                  token := { s.token with api_url := body.apiDomain },
                  calls := s.calls + 1 } s3 hfresh hl
            obtain ⟨ht, hs⟩ := h
            constructor
            · rw [← ht, ← hs]
            · rw [← ht]
              exact hpop
        by_cases h1013 : body.metaCode = 1013
        case pos => simp [loginFull, transport, henv, hj, h1100, h1013] at h
        by_cases h1014 : body.metaCode = 1014
        case pos => simp [loginFull, transport, henv, hj, h1100, h1013, h1014] at h
        by_cases h1015 : body.metaCode = 1015
        case pos =>
          simp [loginFull, transport, henv, hj, h1100, h1013, h1014, h1015] at h
        by_cases hsid : body.sessionId = ""
        case pos =>
          simp [loginFull, transport, henv, hj, h1100, h1013, h1014, h1015, hsid] at h
        rw [loginFull_success_step env n a p s body henv hj h1100 h1013 h1014
          h1015 hsid] at h
        rcases hg : (getServiceUrls env n
            { s with
                token := { session_id := some body.sessionId,
                           rf_session_id := some body.rfSessionId,
                           username := some body.username,
                           api_url := body.apiDomain,
                           service_urls := s.token.service_urls },
                calls := s.calls + 1 }) with _ | ⟨e, s3⟩ | s3
        · rw [hg] at h
          simp at h
        · rw [hg] at h
          simp at h
        · rw [hg] at h
          simp at h
          have hS3 := getServiceUrls_ok env n _ s3 hg
          obtain ⟨ht, hs⟩ := h
          subst hS3
          constructor
          · rw [← ht, ← hs]
          · rw [← ht]
            refine ⟨by simp [strTruthy, hsid], by simp, by simp, by simp⟩
    · intro s s2 hfresh h
      have h1 : (strTruthy s.token.session_id && strTruthy s.token.rf_session_id)
          = false := by
        cases hA : strTruthy s.token.session_id <;>
          cases hB : strTruthy s.token.rf_session_id <;> simp_all
      by_cases hcred : (strTruthy s.account && strTruthy s.password) = true
      · rw [login_full_branch env n s h1 hcred] at h
        rcases hl : (loginFull env n (s.account.getD "") (s.password.getD "") s)
          with _ | ⟨e, s3⟩ | tp
        · rw [hl] at h
          simp [dropTokenResult] at h
        · rw [hl] at h
          simp [dropTokenResult] at h
        · obtain ⟨t, s3⟩ := tp
          rw [hl] at h
          simp [dropTokenResult] at h
          obtain ⟨hts, hpop⟩ := ihF _ _ _ _ _ hfresh hl
          rw [← h, ← hts]
          exact hpop
      · have hcred2 : (strTruthy s.account && strTruthy s.password) = false := by
          cases hc : (strTruthy s.account && strTruthy s.password) <;> simp_all
        simp [login, h1, hcred2] at h

end Pyezviz

namespace Pyezviz

/-- C8: every token produced by a successful full login exchange — `_login`
entered, as `login()` enters it, without a truthy session pair — is fully
populated: non-empty session id, refresh id present, account username
present, service urls attached (the base-address field `api_url` is a
plain string field of the token, always present); and the returned token
is exactly the client token.  A successful login never produces a
partially populated token. -/
theorem login_token_fully_populated (env : Nat → Resp) (fuel : Nat)
    (a p : String) (s : CState) (t : Token) (s2 : CState)
    (hfresh : ¬(strTruthy s.token.session_id = true ∧
                strTruthy s.token.rf_session_id = true))
    (hok : loginFull env fuel a p s = .ok (t, s2)) :
    fullyPopulated t ∧ t = s2.token := by
  obtain ⟨ht, hp⟩ := (loginFull_login_populated env fuel).1 a p s t s2 hfresh hok
  exact ⟨hp, ht⟩

/-- C8 witness: a successful login on a fresh client yields the fully
populated token. -/
theorem login_token_fully_populated_witness :
    fullyPopulated
      { session_id := some "sessid", rf_session_id := some "rfid",
        username := some "user", api_url := "apius.ezvizlife.com",
        service_urls := true } ∧
    ({ session_id := some "sessid", rf_session_id := some "rfid",
       username := some "user", api_url := "apius.ezvizlife.com",
       service_urls := true } : Token) =
      ({ account := some "bob", password := some "hunter2",
         token := { session_id := some "sessid", rf_session_id := some "rfid",
                    username := some "user", api_url := "apius.ezvizlife.com",
                    service_urls := true },
         calls := 2 } : CState).token :=
  login_token_fully_populated envLoginOk 2 "bob" "hunter2" freshState
    { session_id := some "sessid", rf_session_id := some "rfid",
      username := some "user", api_url := "apius.ezvizlife.com",
      service_urls := true }
    { account := some "bob", password := some "hunter2",
      token := { session_id := some "sessid", rf_session_id := some "rfid",
                 username := some "user", api_url := "apius.ezvizlife.com",
                 service_urls := true },
      calls := 2 }
    (by decide) (by decide)

/-- C9: when the login response indicates a region mismatch (`meta.code`
1100), `_login` adopts the new region base address and re-enters `login()`
from the top; and there is no bound on this redirect loop: in an
environment in which every response is a region redirect, a credentialed
client that enters the full login path neither returns nor raises, for
every modelling fuel — the source has no cap on redirect-driven
retries. -/
theorem login_region_redirect (env : Nat → Resp) (fuel : Nat) (a p : String)
    (s : CState) (body : Body)
    (hresp : env s.calls = .ok body) (hjson : body.jsonOk = true)
    (hcode : body.metaCode = 1100) :
    (loginFull env (fuel + 1) a p s =
      withTokenResult (login env fuel
        { s with
            token := { s.token with api_url := body.apiDomain },
            calls := s.calls + 1 })) ∧
    (∀ (env2 : Nat → Resp) (fuel2 : Nat) (a2 p2 : String) (s2 : CState),
      (∀ n, env2 n = .ok redirectBody) →
      ¬(strTruthy s2.token.session_id = true ∧
        strTruthy s2.token.rf_session_id = true) →
      strTruthy s2.account = true → strTruthy s2.password = true →
      loginFull env2 fuel2 a2 p2 s2 = .diverge ∧
        login env2 fuel2 s2 = .diverge) := by
  constructor
  · exact loginFull_redirect_step env fuel a p s body hresp hjson hcode
  · intro env2 fuel2
    induction fuel2 with
    | zero =>
      intro a2 p2 s2 henv2 hfresh hacc hpw
      constructor <;> rfl
    | succ m ih =>
      intro a2 p2 s2 henv2 hfresh hacc hpw
      have hcred : (strTruthy s2.account && strTruthy s2.password) = true := by
        simp [hacc, hpw]
      have hsess : (strTruthy s2.token.session_id &&
          strTruthy s2.token.rf_session_id) = false := by
        cases hA : strTruthy s2.token.session_id <;>
          cases hB : strTruthy s2.token.rf_session_id <;> simp_all
      constructor
      · rw [loginFull_redirect_step env2 m a2 p2 s2 redirectBody (henv2 _) rfl rfl]
        have := (ih a2 p2
          { s2 with
              token := { s2.token with api_url := redirectBody.apiDomain },
              calls := s2.calls + 1 } henv2 hfresh hacc hpw).2
        rw [this]
        rfl
      · rw [login_full_branch env2 m s2 hsess hcred]
        have := (ih (s2.account.getD "") (s2.password.getD "") s2 henv2 hfresh
          hacc hpw).1
        rw [this]
        rfl

/-- C9 witness: on a fresh credentialed client, one redirect response
re-enters `login()` with the adopted domain, and in the all-redirect
environment the login diverges at fuel 7. -/
theorem login_region_redirect_witness :
    (loginFull envRedirect 1 "bob" "hunter2" freshState =
      withTokenResult (login envRedirect 0
        { freshState with
            token := { freshState.token with
                         api_url := redirectBody.apiDomain },
            calls := freshState.calls + 1 })) ∧
    loginFull envRedirect 7 "bob" "hunter2" freshState = .diverge := by
  have T := login_region_redirect envRedirect 0 "bob" "hunter2" freshState
    redirectBody (by decide) (by decide) (by decide)
  exact ⟨T.1, (T.2 envRedirect 7 "bob" "hunter2" freshState (fun n => rfl)
    (by decide) (by decide) (by decide)).1⟩

end Pyezviz
